import Mathlib

/-!
Verification of the cms-ipxe build-orchestration sidecar.

This file shallowly embeds the staleness-detection / rebuild-gating core of
the `crayipxe` package (files `builder.py`, `tokens.py`,
`liveness/ipxe_timestamp.py`, `liveness/__main__.py`) and proves properties
about the embedded definitions.

Conventions of the embedding:
* Python floats holding epoch seconds / durations are modelled as exact
  rationals (`ℚ`); the properties verified are about the comparison and
  ordering structure, not floating-point rounding.
* Fallible Python code (uncaught `TypeError` / `ValueError`) is modelled
  with `Except PyErr`.
* Reading a file that may be absent is modelled by passing the parsed file
  content as an `Option`.
* Remote configmap / token-endpoint calls are modelled by passing the
  remote value in as a parameter and counting the number of fetches the
  code issues.
-/

namespace CrayIpxe

/-- Python exceptions that the modelled code can raise and does not catch. -/
inductive PyErr where
  | typeError
  | valueError
  deriving DecidableEq, Repr

/-! ## `liveness/ipxe_timestamp.py` — the Timestamp Record

The persisted JSON object is
`{"timestamp": float|null, "max_age": float|null, "last_build": float|null}`.
A record written by `ipxeTimestamp.__init__` always has `timestamp` and
`max_age` set and `last_build` initially `null`.
-/

/-- The parsed content of the timestamp file (`json.load` of the file that
`ipxeTimestamp` writes). `none` fields model JSON `null`. -/
structure TimestampData where
  timestamp : Option ℚ
  max_age : Option ℚ
  last_build : Option ℚ
  deriving DecidableEq, Repr

namespace ipxeTimestamp

/-- `ipxeTimestamp._data` (getter): if the file exists, parse it; otherwise
return a dictionary with every field `None`. The filesystem at the record's
path is modelled as `Option TimestampData` (`none` = file absent). -/
def _data (fs : Option TimestampData) : TimestampData :=
  match fs with
  | some d => d
  | none => ⟨none, none, none⟩

/-- `ipxeTimestamp.value`: `float(self._data['timestamp'])`. The key is
always present in dictionaries `_data` produces, so the caught `KeyError`
cannot occur; `float(None)` raises an uncaught `TypeError`. -/
def value (fs : Option TimestampData) : Except PyErr ℚ :=
  match (_data fs).timestamp with
  | none => .error .typeError
  | some t => .ok t

/-- `ipxeTimestamp.max_age`: `float(self._data['max_age'])`; `float(None)`
raises an uncaught `TypeError`. -/
def max_age (fs : Option TimestampData) : Except PyErr ℚ :=
  match (_data fs).max_age with
  | none => .error .typeError
  | some m => .ok m

/-- `ipxeTimestamp.max_delta`: `timedelta(seconds=self.max_age)`. -/
def max_delta (fs : Option TimestampData) : Except PyErr ℚ :=
  max_age fs

/-- `ipxeTimestamp.last_build`: `float(self._data['last_build'])` with
`KeyError` and `TypeError` both caught, returning `None`. -/
def last_build (fs : Option TimestampData) : Option ℚ :=
  (_data fs).last_build

/-- `ipxeTimestamp.last_build_age`: `'Never'` when there has been no build,
otherwise `now - last_build`. `none` models the string `'Never'`. -/
def last_build_age (fs : Option TimestampData) (now : ℚ) : Option ℚ :=
  match last_build fs with
  | none => none
  | some lb => some (now - lb)

/-- `ipxeTimestamp.expiration_date`: `self.value + self.max_delta`
(`value` is evaluated first, as in the source). -/
def expiration_date (fs : Option TimestampData) : Except PyErr ℚ := do
  let v ← value fs
  let m ← max_delta fs
  pure (v + m)

/-- `ipxeTimestamp.expired`: `datetime.datetime.now() > self.expiration_date`. -/
def expired (fs : Option TimestampData) (now : ℚ) : Except PyErr Bool := do
  let e ← expiration_date fs
  pure (decide (now > e))

/-- `ipxeTimestamp.recent_build`: returns `False` when `last_build_age` is
not a timedelta (no build yet), otherwise `self.last_build_age < self.max_delta`. -/
def recent_build (fs : Option TimestampData) (now : ℚ) : Except PyErr Bool :=
  match last_build_age fs now with
  | none => .ok false
  | some age => do
      let m ← max_delta fs
      pure (decide (age < m))

/-- `ipxeTimestamp.alive`: `any([not self.expired, self.recent_build])`;
the list is built eagerly, so `expired` is evaluated first, then
`recent_build`, then the disjunction. -/
def alive (fs : Option TimestampData) (now : ℚ) : Except PyErr Bool := do
  let e ← expired fs now
  let r ← recent_build fs now
  pure (!e || r)

end ipxeTimestamp

/-! ## `liveness/__main__.py` — the one-shot liveness probe -/

/-- Which of the two distinct warning messages the probe logs. -/
inductive ProbeLog where
  | expiredMsg
  | noDataMsg
  deriving DecidableEq, Repr

/-- The `__main__` block of `crayipxe.liveness`: `ipxeTimestamp.byref`
raises `ipxeTimestampNoEnt` when the file is absent, which is caught and
turned into exit code 1 with the no-data warning; otherwise `timestamp.alive`
decides between exit 0 (no log) and exit 1 with the expired warning. -/
def liveness_check (fs : Option TimestampData) (now : ℚ) :
    Except PyErr (Nat × Option ProbeLog) :=
  match fs with
  | none => .ok (1, some .noDataMsg)
  | some d => do
      let a ← ipxeTimestamp.alive (some d) now
      if a then pure (0, none) else pure (1, some .expiredMsg)

/-! ## `tokens.py` — `token_expiring_soon` -/

/-- Result of `jwt.decode(bearer_token, options={"verify_signature": False})`:
either the decode raises (any exception is caught, treated as expiring) or it
yields a claim map; only integer-valued claims matter here. -/
inductive JwtDecode where
  | failure
  | success (claims : List (String × Int))
  deriving DecidableEq, Repr

/-- Digit-accumulation loop of `pyInt`: consumes decimal digits, failing on
any other character. -/
def pyIntLoop : List Char → Nat → Option Nat
  | [], acc => some acc
  | c :: cs, acc =>
      if '0' ≤ c ∧ c ≤ '9' then pyIntLoop cs (acc * 10 + (c.toNat - 48))
      else none

/-- Digit parsing of `pyInt`: at least one decimal digit is required. -/
def pyIntCore : List Char → Option Nat
  | [] => none
  | cs => pyIntLoop cs 0

/-- Python `int(s)` on a string: an optional leading `-` followed by at least
one decimal digit; anything else raises `ValueError`. (Python's tolerance of
surrounding whitespace, a leading `+` and underscores is not modelled — the
configured values are plain decimal strings.) -/
def pyInt (s : String) : Except PyErr Int :=
  match s.toList with
  | '-' :: cs =>
    match pyIntCore cs with
    | none => .error .valueError
    | some n => .ok (-(n : Int))
  | cs =>
    match pyIntCore cs with
    | none => .error .valueError
    | some n => .ok ((n : Int))

/-- `token_expiring_soon(bearer_token, min_remaining_valid_time)`.
`bearer_token = none` models Python `None`; a present token is modelled by
the result of decoding it. `tnow` is `int(time.time())`;
`int(min_remaining_valid_time)` raises an uncaught `ValueError` when the
string does not parse as an integer. -/
def token_expiring_soon (bearer_token : Option JwtDecode)
    (min_remaining_valid_time : String) (tnow : Int) : Except PyErr Bool :=
  match bearer_token with
  | none => .ok true
  | some .failure => .ok true
  | some (.success tokenMap) =>
    match tokenMap.lookup "exp" with
    | none => .ok true
    | some tokenExp =>
      match pyInt min_remaining_valid_time with
      | .error e => .error e
      | .ok mr => .ok (decide (tnow ≥ tokenExp - mr))

/-! ## `builder.py` — the `BinaryBuilder` class

Upstream configmaps are YAML mappings; the values the builder reads from them
are booleans and strings, modelled by `SVal`. A parsed settings mapping is an
association list (the builder only ever compares whole mappings for equality
and looks keys up).
-/

/-- A YAML scalar value stored in a settings configmap. -/
inductive SVal where
  | b (v : Bool)
  | s (v : String)
  deriving DecidableEq, Repr

/-- Python truthiness of a settings value (`if not self.enabled`, `if
self.build_with_certs`). -/
def SVal.truthy : SVal → Bool
  | .b v => v
  | .s v => !(v == "")

/-- Rendering of a settings value in a position where the source expects a
string (the YAML value is passed through unchanged; the shipped settings use
strings for these keys). -/
def SVal.asString : SVal → String
  | .b v => if v then "True" else "False"
  | .s v => v

/-- A parsed `settings.yaml` mapping. -/
abbrev Settings := List (String × SVal)

/-- Python truthiness of `self._global_settings`: `None` and the empty
mapping are both falsy. -/
def settingsTruthy : Option Settings → Bool
  | none => false
  | some l => !l.isEmpty

/-- Python truthiness of `self._global_settings_timestamp`: `None` and the
float `0.0` are falsy. -/
def tsTruthy : Option ℚ → Bool
  | none => false
  | some t => decide (t ≠ 0)

/-- `BinaryBuilder.CONFIGMAP_CACHE_TIMEOUT` (seconds). -/
def CONFIGMAP_CACHE_TIMEOUT : ℚ := 600

/-- The slice of builder state that the `global_settings` property reads and
writes: the cached settings, the cache timestamp, and the shared
`recreation_necessary` flag. -/
structure GsState where
  _global_settings : Option Settings
  _global_settings_timestamp : Option ℚ
  recreation_necessary : Bool
  deriving DecidableEq, Repr

/-- Result of one access to the `global_settings` property: the returned
mapping, the updated state, and how many remote configmap reads the access
issued. -/
structure GsResult where
  value : Settings
  state : GsState
  fetches : Nat
  deriving DecidableEq, Repr

/-- `BinaryBuilder.global_settings`: remember the prior cached value,
invalidate the cache when it is older than `CONFIGMAP_CACHE_TIMEOUT`, fetch
the remote settings configmap when no (truthy) cached value remains, and set
`recreation_necessary` when the cached value changed (including the very
first fetch). `remote` is the current parsed content of the
`cray-ipxe-settings` configmap. -/
def global_settings_acc (st : GsState) (now : ℚ) (remote : Settings) : GsResult :=
  let local_settings := st._global_settings
  let st1 :=
    if settingsTruthy st._global_settings && tsTruthy st._global_settings_timestamp
        && decide (now - (st._global_settings_timestamp.getD 0) > CONFIGMAP_CACHE_TIMEOUT) then
      { st with _global_settings := none, _global_settings_timestamp := none }
    else st
  let fetchNeeded := !settingsTruthy st1._global_settings
  let st2 :=
    if fetchNeeded then
      { st1 with _global_settings := some remote, _global_settings_timestamp := some now }
    else st1
  let st3 :=
    if local_settings ≠ st2._global_settings then
      { st2 with recreation_necessary := true }
    else st2
  ⟨st3._global_settings.getD [], st3, if fetchNeeded then 1 else 0⟩

/-- `BinaryBuilder.enabled`: one access to `self.global_settings` (with its
caching and flagging side effects) followed by
`settings.get(ENABLED_TAG, True)`; the caller applies Python truthiness. -/
def enabled_acc (st : GsState) (now : ℚ) (remote : Settings) (enabledTag : String) :
    GsResult × SVal :=
  let r := global_settings_acc st now remote
  (r, (r.value.lookup enabledTag).getD (.b true))

/-- Result of running one iteration of the `__call__` polling loop up to and
including the enablement gate. -/
structure CyclePrefixResult where
  state : GsState
  fetches : Nat
  enabled : Bool
  deriving DecidableEq, Repr

/-- One iteration of `BinaryBuilder.__call__`'s loop through the enablement
gate: `self.set_log_level()` reads `self.global_settings`, then (after the
sleep) `if not self.enabled: continue` reads it again. When the result's
`enabled` is false the iteration ends here (`continue`), so for a disabled
builder this is the whole poll cycle; `fetches` counts every remote
configmap read the cycle issued. -/
def poll_cycle_to_enabled_gate (st : GsState) (now : ℚ) (remote : Settings)
    (enabledTag : String) : CyclePrefixResult :=
  let r1 := global_settings_acc st now remote
  let (r2, ev) := enabled_acc r1.state now remote enabledTag
  ⟨r2.state, r1.fetches + r2.fetches, ev.truthy⟩

/-- The slice of builder state the `cert_path` property touches: the content
of the materialized certificate file (`none` while `_cert_path is None`) and
the shared `recreation_necessary` flag. -/
structure CertState where
  _cert_path : Option String
  recreation_necessary : Bool
  deriving DecidableEq, Repr

/-- `BinaryBuilder.cert_path`: read back the materialized certificate (when
one exists), unconditionally fetch the upstream certificate configmap (one
remote read on every access — the property has no cache timeout), and on any
difference set `recreation_necessary` and rewrite the materialized file with
the upstream content. Returns the updated state and the number of remote
reads issued. -/
def cert_path_acc (st : CertState) (upstream_cert : String) : CertState × Nat :=
  let existing_cert := st._cert_path
  if existing_cert ≠ some upstream_cert then
    (⟨some upstream_cert, true⟩, 1)
  else (st, 1)

/-- Change-detection core shared verbatim by `BinaryBuilder.bss_script_path`
and `BinaryBuilder.debug_script_path`: read back the materialized local
script (`local`, `none` when no local copy was ever written), fetch the
upstream value (`upstream`, `none` when the configmap lacks the key), and on
a difference delete the old copy, write the upstream value to a fresh
temporary file and set the rebuild flag. Writing an absent (`None`) upstream
value raises `TypeError`. Returns the new materialized content and flag. -/
def script_path_acc (localScript : Option String) (upstream : Option String) (flag : Bool) :
    Except PyErr (Option String × Bool) :=
  if localScript ≠ upstream then
    match upstream with
    | none => .error .typeError
    | some u => .ok (some u, true)
  else .ok (localScript, flag)

/-- `BinaryBuilder.bss_script_path`: the upstream value is
`data.get('bss.ipxe')` of the builder's BSS configmap; one remote read per
access. -/
def bss_script_path_acc : Option String → Option String → Bool →
    Except PyErr (Option String × Bool) :=
  script_path_acc

/-- `BinaryBuilder.debug_script_path`: the upstream value is `safe_load` of
`data.get('shell.ipxe')` of the `cray-ipxe-shell-ipxe` configmap; one remote
read per access. -/
def debug_script_path_acc : Option String → Option String → Bool →
    Except PyErr (Option String × Bool) :=
  script_path_acc

/-- The class-level constants distinguishing the two concrete builder
classes. -/
structure BuilderClass where
  ARCH : String
  ENABLED_TAG : String
  MAKE_ADDENDUM : List String
  deriving DecidableEq, Repr

/-- The `X86Builder` class constants. -/
def X86Builder : BuilderClass :=
  ⟨"x86_64", "cray_ipxe_build_x86", []⟩

/-- The `Arm64builder` class constants. -/
def Arm64builder : BuilderClass :=
  ⟨"arm64", "cray_ipxe_build_aarch64", ["CROSS_COMPILE=aarch64-linux-gnu-", "ARCH=arm64"]⟩

/-- The `configmap_name` property as defined (identically) on `X86Builder`
and on `Arm64builder`: lazily computed and cached; the base name
`'cray-ipxe-bss-ipxe'` is replaced by the literal string `'%s-aarch64'` when
`self.ARCH == 'aarch64'` (the source never interpolates that `%s`). A cached
empty string is falsy and would be recomputed. Returns the property value
and the updated `_configmap_name` cache. -/
def configmap_name (ARCH : String) (cached : Option String) : String × Option String :=
  let cachedTruthy :=
    match cached with
    | none => false
    | some n => !(n == "")
  if cachedTruthy then
    (cached.getD "", cached)
  else
    let base_name := "cray-ipxe-bss-ipxe"
    let base_name := if ARCH == "aarch64" then "%s-aarch64" else base_name
    (base_name, some base_name)

/-! ### One full iteration of `BinaryBuilder.__call__`

The loop body is modelled as a function of the builder's instance state and a
"world" giving the current remote values and the exit status of the external
`make` invocations. Materialized files are tracked by content; the temporary
file names passed to `make` are opaque, so the content string stands in for
the basename (only the presence and count of the command-line arguments
matter to the verified properties).
-/

/-- `subprocess.CalledProcessError` raised by `subprocess.check_call` on a
nonzero exit status. -/
inductive MakeExit where
  | ok
  | fail
  deriving DecidableEq, Repr

/-- The mutable per-instance builder state that one loop iteration reads and
writes (file-backed artifacts tracked by content). -/
structure BuilderState where
  _global_settings : Option Settings
  _global_settings_timestamp : Option ℚ
  _cert_path : Option String
  _bss_script_path : Option String
  _debug_script_path : Option String
  _bearer_token : Option String
  recreation_necessary : Bool
  deriving DecidableEq, Repr

/-- Project the `global_settings` slice out of the full builder state. -/
def BuilderState.gsProj (s : BuilderState) : GsState :=
  ⟨s._global_settings, s._global_settings_timestamp, s.recreation_necessary⟩

/-- Write an updated `global_settings` slice back into the builder state. -/
def BuilderState.withGs (s : BuilderState) (g : GsState) : BuilderState :=
  { s with _global_settings := g._global_settings,
           _global_settings_timestamp := g._global_settings_timestamp,
           recreation_necessary := g.recreation_necessary }

/-- The remote world one loop iteration runs against: current configmap
contents, the token endpoint, JWT decoding, and the exit statuses of the two
`make` invocations. -/
structure BuilderWorld where
  now : ℚ
  tnow : Int
  settings_cm : Settings
  ca_cert_cm : String
  bss_cm : Option String
  shell_cm : Option String
  s3_host_value : Option String
  decode : String → JwtDecode
  fetched_token : Option String
  primary_make : MakeExit
  debug_make : MakeExit

/-- Counts of the observable effects one loop iteration performed. -/
structure CycleTrace where
  settings_fetches : Nat
  cert_fetches : Nat
  bss_fetches : Nat
  shell_fetches : Nat
  s3_fetches : Nat
  token_fetches : Nat
  builds_run : Nat
  publishes : Nat
  refresh_build_calls : Nat
  deriving DecidableEq, Repr

/-- The all-zero trace at the start of an iteration. -/
def CycleTrace.empty : CycleTrace := ⟨0, 0, 0, 0, 0, 0, 0, 0, 0⟩

/-- How one loop iteration ended: back to the top of the loop, or by an
uncaught exception (which kills the process — the loop has no handler). -/
inductive CycleExit where
  | continued
  | raised (e : PyErr)
  | buildFailed
  deriving DecidableEq, Repr

/-- The final state, effect counts and outcome of one loop iteration. -/
structure CycleResult where
  state : BuilderState
  trace : CycleTrace
  exit : CycleExit
  deriving DecidableEq, Repr

/-- `BinaryBuilder.build_command` / `debug_command` argument-list assembly
(the value the property returns once the contributing properties have been
evaluated): `['make', '<arch_build_dir>/ipxe.efi'] ++ MAKE_ADDENDUM ++
['DEBUG=<options>']`, then `CERT=`/`TRUST=` when building with certs, then
`EMBED=<script>`, then `S3_HOST=` when a host was found, then
`BEARER_TOKEN=<token>`. -/
def make_command_list (archDir : String) (make_addendum : List String)
    (options : String) (with_certs : Bool) (cert_file : String)
    (embed_file : String) (s3_host : Option String) (token : String) : List String :=
  let cmd := ["make", archDir ++ "/ipxe.efi"] ++ make_addendum ++ ["DEBUG=" ++ options]
  let cmd := if with_certs then cmd ++ ["CERT=" ++ cert_file, "TRUST=" ++ cert_file] else cmd
  let cmd := cmd ++ ["EMBED=" ++ embed_file]
  let cmd :=
    match s3_host with
    | some h => cmd ++ ["S3_HOST=" ++ h]
    | none => cmd
  cmd ++ ["BEARER_TOKEN=" ++ token]

/-- `BinaryBuilder.arch_build_dir`: `'bin-%s-efi' % self.ARCH`. -/
def arch_build_dir (ARCH : String) : String := "bin-" ++ ARCH ++ "-efi"

/-- `'%s' % self._bearer_token` as interpolated into the command line
(`None` renders as the string `"None"`). -/
def tokenRepr : Option String → String
  | none => "None"
  | some t => t

/-- `BinaryBuilder.bearer_token`: check `token_expiring_soon` for the stored
token against `self.token_min_remaining_valid_time` (itself a
`global_settings` access); when expiring, call `fetch_token` (one remote
call, after one more `global_settings` access for the token host), touch the
`httpcore.c` source and set `recreation_necessary`. Returns the builder
state, the trace, and the token value or an uncaught error. -/
def bearer_token_acc (s : BuilderState) (w : BuilderWorld) (tr : CycleTrace) :
    BuilderState × CycleTrace × Except PyErr (Option String) :=
  let rMin := global_settings_acc s.gsProj w.now w.settings_cm
  let s := s.withGs rMin.state
  let tr := { tr with settings_fetches := tr.settings_fetches + rMin.fetches }
  let minRemaining :=
    ((rMin.value.lookup "cray_ipxe_token_min_remaining_valid_time").getD (.s "1800")).asString
  match token_expiring_soon (s._bearer_token.map w.decode) minRemaining w.tnow with
  | .error e => (s, tr, .error e)
  | .ok true =>
      let rHost := global_settings_acc s.gsProj w.now w.settings_cm
      let s := s.withGs rHost.state
      let tr := { tr with settings_fetches := tr.settings_fetches + rHost.fetches,
                          token_fetches := tr.token_fetches + 1 }
      let s := { s with _bearer_token := w.fetched_token, recreation_necessary := true }
      (s, tr, .ok s._bearer_token)
  | .ok false => (s, tr, .ok s._bearer_token)

/-- Evaluation of the `build_command` property (`debug := false`) or the
`debug_command` property (`debug := true`), with every side effect of the
properties it reads, in source order: `build_with_certs` (a
`global_settings` access), `cert_path` when building with certs,
`bss_script_path` (primary) or `debug_script_path` (debug), `s3_host` (one
remote read whose failures are caught), and `bearer_token`. Returns the
assembled argument list — a single Python list, exactly what the property
`return`s. -/
def command_prop_acc (cls : BuilderClass) (s : BuilderState) (w : BuilderWorld)
    (debug : Bool) (tr : CycleTrace) :
    BuilderState × CycleTrace × Except PyErr (List String) :=
  let options := if debug then "httpcore:2,x509:2,efi_time" else "httpcore,x509,efi_time"
  let rCerts := global_settings_acc s.gsProj w.now w.settings_cm
  let s := s.withGs rCerts.state
  let tr := { tr with settings_fetches := tr.settings_fetches + rCerts.fetches }
  let with_certs :=
    match rCerts.value.lookup "cray_ipxe_build_with_cert" with
    | none => false
    | some v => v.truthy
  let (s, tr, cert_file) :=
    if with_certs then
      let (cs, n) := cert_path_acc ⟨s._cert_path, s.recreation_necessary⟩ w.ca_cert_cm
      ({ s with _cert_path := cs._cert_path,
                recreation_necessary := cs.recreation_necessary },
       { tr with cert_fetches := tr.cert_fetches + n },
       cs._cert_path.getD "")
    else (s, tr, "")
  let scriptResult :=
    if debug then debug_script_path_acc s._debug_script_path w.shell_cm s.recreation_necessary
    else bss_script_path_acc s._bss_script_path w.bss_cm s.recreation_necessary
  let tr :=
    if debug then { tr with shell_fetches := tr.shell_fetches + 1 }
    else { tr with bss_fetches := tr.bss_fetches + 1 }
  match scriptResult with
  | .error e => (s, tr, .error e)
  | .ok (newScript, newFlag) =>
    let s :=
      if debug then { s with _debug_script_path := newScript, recreation_necessary := newFlag }
      else { s with _bss_script_path := newScript, recreation_necessary := newFlag }
    let embed_file := newScript.getD ""
    let tr := { tr with s3_fetches := tr.s3_fetches + 1 }
    let s3_host := w.s3_host_value
    match bearer_token_acc s w tr with
    | (s, tr, .error e) => (s, tr, .error e)
    | (s, tr, .ok tok) =>
      (s, tr, .ok (make_command_list (arch_build_dir cls.ARCH) cls.MAKE_ADDENDUM options
        with_certs cert_file embed_file s3_host (tokenRepr tok)))

/-- The artifact-tracking state right after `BinaryBuilder.__init__`: no
cached settings, no materialized files, no token, and
`recreation_necessary = True`. -/
def initial_builder_state : BuilderState :=
  ⟨none, none, none, none, none, none, true⟩

/-- Python tuple unpacking `a, b = xs` of a list into two targets: succeeds
only when the list has exactly two elements, otherwise raises `ValueError`
(too many / not enough values to unpack). -/
def unpack2 (xs : List String) : Except PyErr (String × String) :=
  match xs with
  | [a, b] => .ok (a, b)
  | _ => .error .valueError

/-- One full iteration of the `while True` loop of `BinaryBuilder.__call__`:
`set_log_level` (a `global_settings` access), the sleep, the enablement gate,
then `build_command, build_environment = self.build_command` and
`debug_command, debug_environment = self.debug_command` (each property is
evaluated fully, then its single returned list is tuple-unpacked into two
variables), the `recreation_necessary` gate, and finally
build / publish / `refresh_build` for the primary flavor followed by the
debug flavor, after which the flag is cleared. An uncaught exception anywhere
ends the iteration (and the process) with the state reached so far. -/
def call_cycle (cls : BuilderClass) (s : BuilderState) (w : BuilderWorld) : CycleResult :=
  let tr := CycleTrace.empty
  let rLog := global_settings_acc s.gsProj w.now w.settings_cm
  let s := s.withGs rLog.state
  let tr := { tr with settings_fetches := tr.settings_fetches + rLog.fetches }
  let (rEn, ev) := enabled_acc s.gsProj w.now w.settings_cm cls.ENABLED_TAG
  let s := s.withGs rEn.state
  let tr := { tr with settings_fetches := tr.settings_fetches + rEn.fetches }
  if !ev.truthy then ⟨s, tr, .continued⟩ else
  match command_prop_acc cls s w false tr with
  | (s, tr, .error e) => ⟨s, tr, .raised e⟩
  | (s, tr, .ok buildList) =>
    match unpack2 buildList with
    | .error e => ⟨s, tr, .raised e⟩
    | .ok (build_command, _build_environment) =>
      match command_prop_acc cls s w true tr with
      | (s, tr, .error e) => ⟨s, tr, .raised e⟩
      | (s, tr, .ok debugList) =>
        match unpack2 debugList with
        | .error e => ⟨s, tr, .raised e⟩
        | .ok (debug_command, _debug_environment) =>
          if !s.recreation_necessary then ⟨s, tr, .continued⟩ else
          let _ := build_command
          let _ := debug_command
          let tr := { tr with builds_run := tr.builds_run + 1 }
          match w.primary_make with
          | .fail => ⟨s, tr, .buildFailed⟩
          | .ok =>
            let tr := { tr with publishes := tr.publishes + 1,
                                refresh_build_calls := tr.refresh_build_calls + 1 }
            let tr := { tr with builds_run := tr.builds_run + 1 }
            match w.debug_make with
            | .fail => ⟨s, tr, .buildFailed⟩
            | .ok =>
              let tr := { tr with publishes := tr.publishes + 1,
                                  refresh_build_calls := tr.refresh_build_calls + 1 }
              ⟨{ s with recreation_necessary := false }, tr, .continued⟩

/-- A concrete first-cycle world: the builder enabled in the settings, BSS
and shell scripts present upstream, no S3 override, the primary `make`
succeeding and the debug `make` failing with a nonzero exit. -/
def c1_world : BuilderWorld :=
  ⟨0, 0, [("cray_ipxe_build_x86", SVal.b true)], "CA", some "bss", some "shell",
    none, fun _ => .failure, some "tok", .ok, .fail⟩

/-! ## Theorems -/

/-- Helper: tuple-unpacking a list into two targets raises `ValueError`
whenever the list does not have exactly two elements. -/
theorem unpack2_of_length_ne (xs : List String) (h : xs.length ≠ 2) :
    unpack2 xs = .error .valueError := by
  match xs, h with
  | [], _ => rfl
  | [_], _ => rfl
  | [_, _], h => exact absurd rfl h
  | _ :: _ :: _ :: _, _ => rfl

/-- Helper: the assembled `make` argument list always has at least five
elements (`make`, the target, the `DEBUG=`, `EMBED=` and `BEARER_TOKEN=`
arguments), so it can never be a pair. -/
theorem make_command_list_length (archDir : String) (make_addendum : List String)
    (options : String) (with_certs : Bool) (cert_file : String)
    (embed_file : String) (s3_host : Option String) (token : String) :
    5 ≤ (make_command_list archDir make_addendum options with_certs cert_file
      embed_file s3_host token).length := by
  unfold make_command_list
  cases s3_host <;> cases with_certs <;> simp

/-- C6: for every valid Timestamp Record state `(touched_at = t, max_age = m)`
and every query time `now`, `expired` computes `now - touched_at > max_age`,
independently of `last_build` (which is quantified over). -/
theorem c6_expired_characterization (t m : ℚ) (lb : Option ℚ) (now : ℚ) :
    ipxeTimestamp.expired (some ⟨some t, some m, lb⟩) now =
      .ok (decide (now - t > m)) := by
  have h : decide (now > t + m) = decide (now - t > m) :=
    decide_eq_decide.mpr ⟨fun h => by linarith, fun h => by linarith⟩
  calc ipxeTimestamp.expired (some ⟨some t, some m, lb⟩) now
      = .ok (decide (now > t + m)) := rfl
    _ = .ok (decide (now - t > m)) := by rw [h]

/-- C4: for every Timestamp Record state and query time, `alive` equals the
disjunction of "not expired" and "recent build"; in particular a record with
a recent build (`now - last_build < max_age`) is alive even when expired. -/
theorem c4_alive_disjunction (t m : ℚ) (lb : Option ℚ) (now : ℚ) :
    (ipxeTimestamp.alive (some ⟨some t, some m, lb⟩) now =
      .ok ((!decide (now - t > m)) ||
        (match lb with
         | none => false
         | some l => decide (now - l < m)))) ∧
    (∀ l : ℚ, lb = some l → now - l < m →
      ipxeTimestamp.alive (some ⟨some t, some m, lb⟩) now = .ok true) := by
  have h : decide (now > t + m) = decide (now - t > m) :=
    decide_eq_decide.mpr ⟨fun h => by linarith, fun h => by linarith⟩
  constructor
  · cases lb with
    | none =>
        calc ipxeTimestamp.alive (some ⟨some t, some m, none⟩) now
            = .ok ((!decide (now > t + m)) || false) := rfl
          _ = _ := by rw [h]
    | some l =>
        calc ipxeTimestamp.alive (some ⟨some t, some m, some l⟩) now
            = .ok ((!decide (now > t + m)) || decide (now - l < m)) := rfl
          _ = _ := by rw [h]
  · intro l hl hrec
    subst hl
    calc ipxeTimestamp.alive (some ⟨some t, some m, some l⟩) now
        = .ok ((!decide (now > t + m)) || decide (now - l < m)) := rfl
      _ = .ok true := by rw [decide_eq_true hrec, Bool.or_true]

/-- Witness for C4 at the spec's own scenario: `touched_at = 0`,
`max_age = 40`, `last_build = 40`, queried at `now = 41` — expired, yet
alive because of the recent build. -/
theorem c4_alive_disjunction_witness :
    ipxeTimestamp.alive (some ⟨some 0, some 40, some 40⟩) 41 = .ok true :=
  (c4_alive_disjunction 0 40 (some 40) 41).2 40 rfl (by norm_num)

/-- C10: reading a Timestamp Record whose backing file is absent yields the
all-`None` dictionary, and `value`, `expired` and `alive` then raise an
uncaught `TypeError` (from `float(None)`) instead of returning a verdict. -/
theorem c10_absent_file_raises (now : ℚ) :
    ipxeTimestamp._data none = ⟨none, none, none⟩ ∧
    ipxeTimestamp.value none = .error .typeError ∧
    ipxeTimestamp.expired none now = .error .typeError ∧
    ipxeTimestamp.alive none now = .error .typeError :=
  ⟨rfl, rfl, rfl, rfl⟩

/-- C9: both builder classes compute the configmap name
`'cray-ipxe-bss-ipxe'`, because the suffix branch tests `ARCH == 'aarch64'`
while the classes define `'arm64'` and `'x86_64'`; a cached value is returned
unchanged. -/
theorem c9_configmap_name_identical :
    (configmap_name Arm64builder.ARCH none).1 = "cray-ipxe-bss-ipxe" ∧
    (configmap_name X86Builder.ARCH none).1 = "cray-ipxe-bss-ipxe" ∧
    (configmap_name Arm64builder.ARCH none).1 = (configmap_name X86Builder.ARCH none).1 ∧
    (configmap_name Arm64builder.ARCH (some "cray-ipxe-bss-ipxe")).1 = "cray-ipxe-bss-ipxe" ∧
    Arm64builder.ARCH ≠ "aarch64" ∧ X86Builder.ARCH ≠ "aarch64" := by
  decide

/-- C5: for the BSS and debug script artifacts, the first-ever fetch sets the
rebuild flag; a fetch returning the materialized value leaves the flag as it
was; a fetch returning a different value sets the flag and replaces the
materialized copy. -/
theorem c5_script_change_detection (a b : String) (flag : Bool) (h : a ≠ b) :
    (bss_script_path_acc none (some a) flag = .ok (some a, true) ∧
     bss_script_path_acc (some a) (some a) flag = .ok (some a, flag) ∧
     bss_script_path_acc (some a) (some b) flag = .ok (some b, true)) ∧
    (debug_script_path_acc none (some a) flag = .ok (some a, true) ∧
     debug_script_path_acc (some a) (some a) flag = .ok (some a, flag) ∧
     debug_script_path_acc (some a) (some b) flag = .ok (some b, true)) := by
  unfold bss_script_path_acc debug_script_path_acc script_path_acc
  simp [h]

/-- Witness for C5 at concrete script contents. -/
theorem c5_script_change_detection_witness :
    bss_script_path_acc none (some "chain bss") false = .ok (some "chain bss", true) :=
  (c5_script_change_detection "chain bss" "shell" false (by decide)).1.1

/-- C7: for a decodable token whose `exp` claim is `now + 1000`,
`token_expiring_soon` is true with `min_remaining_valid_time = "1800"` and
false with `"500"`; in general, for a decodable token with an `exp` claim and
a parseable minimum, it is true exactly when `now ≥ exp - int(min)`. -/
theorem c7_token_expiring_soon_spec (tnow e mr : Int) (s : String)
    (h : pyInt s = .ok mr) :
    token_expiring_soon (some (.success [("exp", tnow + 1000)])) "1800" tnow = .ok true ∧
    token_expiring_soon (some (.success [("exp", tnow + 1000)])) "500" tnow = .ok false ∧
    (token_expiring_soon (some (.success [("exp", e)])) s tnow = .ok true ↔
      tnow ≥ e - mr) := by
  refine ⟨?_, ?_, ?_⟩
  · show Except.ok (decide (tnow ≥ tnow + 1000 - 1800)) = .ok true
    have hg : tnow ≥ tnow + 1000 - 1800 := by omega
    rw [decide_eq_true hg]
  · show Except.ok (decide (tnow ≥ tnow + 1000 - 500)) = .ok false
    have hg : ¬ tnow ≥ tnow + 1000 - 500 := by omega
    rw [decide_eq_false hg]
  · have hstep : token_expiring_soon (some (.success [("exp", e)])) s tnow =
        .ok (decide (tnow ≥ e - mr)) := by
      show (match pyInt s with
        | .error er => (.error er : Except PyErr Bool)
        | .ok k => .ok (decide (tnow ≥ e - k))) = .ok (decide (tnow ≥ e - mr))
      rw [h]
    rw [hstep]
    constructor
    · intro hk
      have hks : decide (tnow ≥ e - mr) = true := by injection hk
      exact of_decide_eq_true hks
    · intro hk
      rw [decide_eq_true hk]

/-- Witness for C7 at a concrete clock and claim. -/
theorem c7_token_expiring_soon_witness :
    token_expiring_soon (some (.success [("exp", (0:Int) + 1000)])) "1800" 0 = .ok true :=
  (c7_token_expiring_soon_spec 0 100 300 "300" rfl).1

/-- C8: the one-shot liveness probe exits 0 exactly when a record exists and
`alive` holds; a missing record exits 1 with the distinct no-data message,
and an existing record that is not alive exits 1 with the expired message. -/
theorem c8_probe_exit_codes (t m : ℚ) (lb : Option ℚ) (now : ℚ) :
    liveness_check none now = .ok (1, some .noDataMsg) ∧
    (∀ b : Bool, ipxeTimestamp.alive (some ⟨some t, some m, lb⟩) now = .ok b →
      liveness_check (some ⟨some t, some m, lb⟩) now =
        .ok (if b then (0, none) else (1, some .expiredMsg))) := by
  refine ⟨rfl, ?_⟩
  intro b hb
  show (do
    let a ← ipxeTimestamp.alive (some ⟨some t, some m, lb⟩) now
    if a then pure ((0 : Nat), (none : Option ProbeLog))
    else pure (1, some .expiredMsg)) = _
  rw [hb]
  cases b <;> rfl

/-- Witness for C8: a fresh record queried inside its `max_age` exits 0; an
absent record exits 1 with the no-data message. -/
theorem c8_probe_exit_codes_witness :
    liveness_check none 39 = .ok (1, some .noDataMsg) ∧
    liveness_check (some ⟨some 0, some 40, none⟩) 39 = .ok (0, none) := by
  refine ⟨(c8_probe_exit_codes 0 40 none 39).1, ?_⟩
  have halive : ipxeTimestamp.alive (some ⟨some 0, some 40, none⟩) 39 = .ok true := by
    show Except.ok ((!decide ((39:ℚ) > 0 + 40)) || false) = Except.ok true
    rw [decide_eq_false (by norm_num : ¬ (39:ℚ) > 0 + 40)]
    rfl
  have h := (c8_probe_exit_codes 0 40 none 39).2 true halive
  simpa using h

/-- Helper: the first-ever `global_settings` access (uninitialized cache)
issues one fetch, caches the remote value with the current time, and sets
the rebuild flag. -/
theorem gsa_fresh (f : Bool) (now : ℚ) (remote : Settings) :
    global_settings_acc ⟨none, none, f⟩ now remote =
      ⟨remote, ⟨some remote, some now, true⟩, 1⟩ := rfl

/-- Helper: a `global_settings` access with a nonempty cached mapping whose
cache is not invalidated issues no fetch and leaves the state untouched. -/
theorem gsa_cached (x : String × SVal) (rest : List (String × SVal)) (ts : Option ℚ)
    (f : Bool) (now : ℚ) (remote : Settings)
    (h : (tsTruthy ts && decide (now - ts.getD 0 > CONFIGMAP_CACHE_TIMEOUT)) = false) :
    global_settings_acc ⟨some (x :: rest), ts, f⟩ now remote =
      ⟨x :: rest, ⟨some (x :: rest), ts, f⟩, 0⟩ := by
  unfold global_settings_acc
  rw [show settingsTruthy (some (x :: rest)) = true from rfl, Bool.true_and, h]
  simp [settingsTruthy]

/-- Helper: one `global_settings` access issues zero or one fetch. -/
theorem gsa_fetches_le (st : GsState) (now : ℚ) (remote : Settings) :
    (global_settings_acc st now remote).fetches = 0 ∨
      (global_settings_acc st now remote).fetches = 1 := by
  unfold global_settings_acc
  dsimp only
  split_ifs <;> simp

/-- Helper: one `global_settings` access sets the rebuild flag exactly when
the cached mapping it ends up with differs from the one it started with. -/
theorem gsa_flag (st : GsState) (now : ℚ) (remote : Settings) :
    (global_settings_acc st now remote).state.recreation_necessary =
      (st.recreation_necessary || decide (st._global_settings ≠
        (global_settings_acc st now remote).state._global_settings)) := by
  unfold global_settings_acc
  dsimp only
  split_ifs <;> simp_all

/-- Helper: a `global_settings` access that issued no fetch changed nothing:
the whole result is the cached mapping and the original state. -/
theorem gsa_nofetch_state (st : GsState) (now : ℚ) (remote : Settings)
    (h : (global_settings_acc st now remote).fetches = 0) :
    global_settings_acc st now remote = ⟨st._global_settings.getD [], st, 0⟩ := by
  revert h
  unfold global_settings_acc
  dsimp only
  split_ifs with h1 h2 h3 <;> intro h <;> simp_all [settingsTruthy]

/-- Helper: a `global_settings` access that fetched cached the remote value
and stamped the cache with the current time. -/
theorem gsa_fetch_state (st : GsState) (now : ℚ) (remote : Settings)
    (h : (global_settings_acc st now remote).fetches = 1) :
    (global_settings_acc st now remote).state._global_settings = some remote ∧
    (global_settings_acc st now remote).state._global_settings_timestamp = some now := by
  revert h
  unfold global_settings_acc
  dsimp only
  split_ifs <;> intro h <;> simp_all [settingsTruthy]

/-- Helper: a second `global_settings` access at the same instant with the
same (nonempty) remote mapping is a no-op: no fetch, no state change. -/
theorem gsa_second_access (st : GsState) (now : ℚ) (x : String × SVal)
    (rest : List (String × SVal)) :
    global_settings_acc (global_settings_acc st now (x :: rest)).state now (x :: rest) =
      ⟨((global_settings_acc st now (x :: rest)).state._global_settings).getD [],
        (global_settings_acc st now (x :: rest)).state, 0⟩ := by
  rcases gsa_fetches_le st now (x :: rest) with h0 | h1
  · rw [gsa_nofetch_state st now (x :: rest) h0]
    exact gsa_nofetch_state st now (x :: rest) h0
  · obtain ⟨hgs, hts⟩ := gsa_fetch_state st now (x :: rest) h1
    rcases hval : (global_settings_acc st now (x :: rest)).state with ⟨gs1, ts1, f1⟩
    rw [hval] at hgs hts
    dsimp only at hgs hts
    subst hgs; subst hts
    have hcond : (tsTruthy (some now) &&
        decide (now - (some now : Option ℚ).getD 0 > CONFIGMAP_CACHE_TIMEOUT)) = false := by
      have hd : decide (now - (some now : Option ℚ).getD 0 > CONFIGMAP_CACHE_TIMEOUT) = false := by
        apply decide_eq_false
        simp [CONFIGMAP_CACHE_TIMEOUT]
      rw [hd, Bool.and_false]
    exact gsa_cached x rest (some now) f1 now (x :: rest) hcond

/-- C2 counterexample: two immediately successive `cert_path` accesses with
an unchanged remote certificate issue two remote fetches, not one — the
property has no cache timeout. -/
theorem c2_cert_two_fetches_counterexample :
    (cert_path_acc ⟨none, false⟩ "CA").2 +
      (cert_path_acc (cert_path_acc ⟨none, false⟩ "CA").1 "CA").2 = 2 ∧
    ¬((cert_path_acc ⟨none, false⟩ "CA").2 +
      (cert_path_acc (cert_path_acc ⟨none, false⟩ "CA").1 "CA").2 = 1) := by
  decide

/-- C2 (amended): for the global settings artifact, two calls within the
cache timeout with an unchanged nonempty remote mapping issue exactly one
fetch and the second call changes nothing (in particular it never sets
`rebuild_necessary`); the `cert_path` artifact instead fetches on every call
(two calls issue two fetches), though a call seeing an unchanged remote
value never sets `rebuild_necessary` either. -/
theorem c2_single_fetch_within_ttl (x : String × SVal) (rest : List (String × SVal))
    (cert : String) (now1 now2 : ℚ) (f0 g0 : Bool)
    (httl : now2 - now1 ≤ CONFIGMAP_CACHE_TIMEOUT) :
    (global_settings_acc ⟨none, none, f0⟩ now1 (x :: rest)).fetches = 1 ∧
    global_settings_acc (global_settings_acc ⟨none, none, f0⟩ now1 (x :: rest)).state
        now2 (x :: rest) =
      ⟨x :: rest, (global_settings_acc ⟨none, none, f0⟩ now1 (x :: rest)).state, 0⟩ ∧
    (cert_path_acc ⟨none, g0⟩ cert).2 = 1 ∧
    cert_path_acc (cert_path_acc ⟨none, g0⟩ cert).1 cert =
      ((cert_path_acc ⟨none, g0⟩ cert).1, 1) ∧
    (∀ f : Bool, cert_path_acc ⟨some cert, f⟩ cert = (⟨some cert, f⟩, 1)) := by
  have hfirst := gsa_fresh f0 now1 (x :: rest)
  have hcert1 : cert_path_acc ⟨none, g0⟩ cert = (⟨some cert, true⟩, 1) := rfl
  have hcert2 : ∀ f : Bool, cert_path_acc ⟨some cert, f⟩ cert = (⟨some cert, f⟩, 1) := by
    intro f
    simp [cert_path_acc]
  refine ⟨by rw [hfirst], ?_, by rw [hcert1], ?_, hcert2⟩
  · rw [hfirst]
    apply gsa_cached
    by_cases h0 : now1 = 0
    · subst h0
      rw [show tsTruthy (some (0:ℚ)) = false by simp [tsTruthy], Bool.false_and]
    · have hno : ¬ (now2 - (some now1 : Option ℚ).getD 0 > CONFIGMAP_CACHE_TIMEOUT) := by
        simp only [Option.getD_some]
        linarith
      rw [decide_eq_false hno, Bool.and_false]
  · rw [hcert1]
    exact hcert2 true

/-- Witness for C2 (amended) at a concrete settings mapping, certificate
and pair of call times. -/
theorem c2_single_fetch_within_ttl_witness :
    (global_settings_acc ⟨none, none, false⟩ 0
      [("cray_ipxe_build_x86", SVal.b true)]).fetches = 1 :=
  (c2_single_fetch_within_ttl ("cray_ipxe_build_x86", SVal.b true) [] "CA" 0 0 false false
    (by norm_num [CONFIGMAP_CACHE_TIMEOUT])).1

/-- C3 counterexample: a poll cycle in which the builder is disabled can
still issue a remote settings fetch and flip `recreation_necessary` from
false to true — here the cached settings are stale (cached at time 1,
polled at time 1000 > cache timeout) and the remote settings changed to
disable the builder. -/
theorem c3_disabled_cycle_counterexample :
    (poll_cycle_to_enabled_gate
        ⟨some [("cray_ipxe_build_x86", SVal.b true)], some 1, false⟩ 1000
        [("cray_ipxe_build_x86", SVal.b false)] "cray_ipxe_build_x86").enabled = false ∧
    (poll_cycle_to_enabled_gate
        ⟨some [("cray_ipxe_build_x86", SVal.b true)], some 1, false⟩ 1000
        [("cray_ipxe_build_x86", SVal.b false)] "cray_ipxe_build_x86").fetches = 1 ∧
    (poll_cycle_to_enabled_gate
        ⟨some [("cray_ipxe_build_x86", SVal.b true)], some 1, false⟩ 1000
        [("cray_ipxe_build_x86", SVal.b false)] "cray_ipxe_build_x86").state.recreation_necessary
      = true := by
  have hacc1 : global_settings_acc
      ⟨some [("cray_ipxe_build_x86", SVal.b true)], some 1, false⟩ 1000
      [("cray_ipxe_build_x86", SVal.b false)] =
      ⟨[("cray_ipxe_build_x86", SVal.b false)],
        ⟨some [("cray_ipxe_build_x86", SVal.b false)], some 1000, true⟩, 1⟩ := by
    unfold global_settings_acc
    rw [show tsTruthy (some (1:ℚ)) = true by simp [tsTruthy],
        decide_eq_true (by norm_num [CONFIGMAP_CACHE_TIMEOUT] :
          (1000:ℚ) - (some (1:ℚ) : Option ℚ).getD 0 > CONFIGMAP_CACHE_TIMEOUT)]
    simp [settingsTruthy]
  have hacc2 := gsa_cached ("cray_ipxe_build_x86", SVal.b false) [] (some (1000:ℚ)) true 1000
      [("cray_ipxe_build_x86", SVal.b false)]
      (by rw [decide_eq_false (by norm_num [CONFIGMAP_CACHE_TIMEOUT] :
          ¬ ((1000:ℚ) - (some (1000:ℚ) : Option ℚ).getD 0 > CONFIGMAP_CACHE_TIMEOUT)),
        Bool.and_false])
  unfold poll_cycle_to_enabled_gate enabled_acc
  rw [hacc1]
  dsimp only
  rw [hacc2]
  simp [SVal.truthy, List.lookup]

/-- C3 (amended): during a poll cycle in which the builder is disabled, the
only possible remote call is the (at most one) global-settings fetch, and
`recreation_necessary` changes only when that settings read cached a new
mapping — it is set exactly when the cached settings at the end of the cycle
differ from those at the start, and is unchanged whenever the cached
settings are unchanged. -/
theorem c3_disabled_cycle_effects (st : GsState) (now : ℚ) (x : String × SVal)
    (rest : List (String × SVal)) (tag : String)
    (hdis : (poll_cycle_to_enabled_gate st now (x :: rest) tag).enabled = false) :
    (poll_cycle_to_enabled_gate st now (x :: rest) tag).fetches ≤ 1 ∧
    ((poll_cycle_to_enabled_gate st now (x :: rest) tag).state._global_settings =
        st._global_settings →
      (poll_cycle_to_enabled_gate st now (x :: rest) tag).state.recreation_necessary =
        st.recreation_necessary) ∧
    (poll_cycle_to_enabled_gate st now (x :: rest) tag).state.recreation_necessary =
      (st.recreation_necessary || decide (st._global_settings ≠
        (poll_cycle_to_enabled_gate st now (x :: rest) tag).state._global_settings)) := by
  clear hdis
  have hsecond := gsa_second_access st now x rest
  have hflag := gsa_flag st now (x :: rest)
  have hcycle : poll_cycle_to_enabled_gate st now (x :: rest) tag =
      ⟨(global_settings_acc st now (x :: rest)).state,
        (global_settings_acc st now (x :: rest)).fetches + 0,
        (((((global_settings_acc st now (x :: rest)).state._global_settings).getD
          []).lookup tag).getD (.b true)).truthy⟩ := by
    unfold poll_cycle_to_enabled_gate enabled_acc
    dsimp only
    rw [hsecond]
  rw [hcycle]
  refine ⟨?_, ?_, ?_⟩
  · rcases gsa_fetches_le st now (x :: rest) with h | h <;> simp [h]
  · intro hgs
    rw [hflag, hgs]
    simp
  · exact hflag

/-- Witness for C3 (amended): a disabled cycle with a fresh matching cache
issues no fetch and leaves the flag untouched. -/
theorem c3_disabled_cycle_effects_witness :
    (poll_cycle_to_enabled_gate
        ⟨some [("cray_ipxe_build_x86", SVal.b false)], some 1, false⟩ 1
        [("cray_ipxe_build_x86", SVal.b false)] "cray_ipxe_build_x86").fetches ≤ 1 := by
  refine (c3_disabled_cycle_effects
    ⟨some [("cray_ipxe_build_x86", SVal.b false)], some 1, false⟩ 1
    ("cray_ipxe_build_x86", SVal.b false) [] "cray_ipxe_build_x86" ?_).1
  have hacc := gsa_cached ("cray_ipxe_build_x86", SVal.b false) [] (some (1:ℚ)) false 1
      [("cray_ipxe_build_x86", SVal.b false)]
      (by rw [decide_eq_false (by norm_num [CONFIGMAP_CACHE_TIMEOUT] :
          ¬ ((1:ℚ) - (some (1:ℚ) : Option ℚ).getD 0 > CONFIGMAP_CACHE_TIMEOUT)),
        Bool.and_false])
  unfold poll_cycle_to_enabled_gate enabled_acc
  rw [hacc]
  dsimp only
  rw [hacc]
  simp [SVal.truthy, List.lookup]

/-- C1 (code bug): `build_command` and `debug_command` each return one list
of at least five strings, so the tuple unpacking
`build_command, build_environment = self.build_command` in the loop raises
an uncaught `ValueError` on every enabled cycle: no toolchain invocation,
publish or `refresh_build` ever runs, `recreation_necessary` is never
cleared, and the primary-succeeds/debug-fails scenario is unreachable. -/
theorem c1_cycle_crashes_before_building :
    (∀ archDir addendum options wc cf ef s3 tok,
      unpack2 (make_command_list archDir addendum options wc cf ef s3 tok) =
        .error .valueError) ∧
    (call_cycle X86Builder initial_builder_state c1_world).exit = .raised .valueError ∧
    (call_cycle X86Builder initial_builder_state c1_world).trace.builds_run = 0 ∧
    (call_cycle X86Builder initial_builder_state c1_world).trace.refresh_build_calls = 0 ∧
    (call_cycle X86Builder initial_builder_state c1_world).trace.publishes = 0 ∧
    (call_cycle X86Builder initial_builder_state c1_world).state.recreation_necessary = true := by
  constructor
  · intro archDir addendum options wc cf ef s3 tok
    apply unpack2_of_length_ne
    have h5 := make_command_list_length archDir addendum options wc cf ef s3 tok
    omega
  · have hcycle : call_cycle X86Builder initial_builder_state c1_world =
        ⟨⟨some [("cray_ipxe_build_x86", SVal.b true)], some 0, none, some "bss", none,
            some "tok", true⟩,
          ⟨1, 0, 1, 0, 1, 1, 0, 0, 0⟩, .raised .valueError⟩ := by
      simp [call_cycle, c1_world, initial_builder_state, X86Builder,
        BuilderState.gsProj, BuilderState.withGs, global_settings_acc, enabled_acc,
        settingsTruthy, tsTruthy, SVal.truthy, SVal.asString, command_prop_acc,
        bearer_token_acc, cert_path_acc, bss_script_path_acc, debug_script_path_acc,
        script_path_acc, token_expiring_soon, make_command_list, arch_build_dir,
        tokenRepr, unpack2, CycleTrace.empty, List.lookup, CONFIGMAP_CACHE_TIMEOUT]
    rw [hcycle]
    exact ⟨rfl, rfl, rfl, rfl, rfl⟩

end CrayIpxe
